import Mathlib

/-!
Verification of the semantic-analysis (type-checking) pass of the Onyx
compiler, as implemented in `src/checker.c`.  The development shallowly
embeds the checker fragments the claims are about: the `CheckStatus`
protocol, the entity state transition performed by `check_entity`, the
`YIELD`/`YIELD_`/`YIELD_ERROR` helper macros, `check_block`'s resume
logic, `check_return`, `check_for`'s first pass, the integer-switch case
map, `binary_op_is_allowed`, the arithmetic/pointer path of
`check_binaryop`, and the speculative operator-overload probe of
`binaryop_try_operator_overload`.
-/

namespace Onyx

/-- CheckStatus, from the `CheckStatus` enum in checker.c (lines 61-70):
`Check_Success, Check_Complete, Check_Errors_Start, Check_Return_To_Symres,
Check_Yield_Macro, Check_Failed, Check_Error`, in declaration order. -/
inductive CheckStatus where
  | success
  | complete
  | errorsStart
  | returnToSymres
  | yield
  | failed
  | error
deriving DecidableEq, Repr

/-- Numeric value of each enum member, as assigned by C. -/
def CheckStatus.toNat : CheckStatus → Nat
  | .success => 0
  | .complete => 1
  | .errorsStart => 2
  | .returnToSymres => 3
  | .yield => 4
  | .failed => 5
  | .error => 6

/-- The `CHECK` macro bubbles a status up when `cs > Check_Errors_Start`. -/
def CheckStatus.isTerminal (cs : CheckStatus) : Bool :=
  cs.toNat > CheckStatus.errorsStart.toNat

/-- Entity scheduler states, from the spec's data model (§3): an entity moves
`Resolve_Symbols → Check_Types → Code_Gen → Finalized` or `Failed`. -/
inductive EntityState where
  | resolveSymbols
  | checkTypes
  | codeGen
  | finalized
  | failed
deriving DecidableEq, Repr

/-- A scheduler work item as seen by the tail of `check_entity`: its state and
its two retry counters (`macro_attempts`, `micro_attempts`). -/
structure Entity where
  state : EntityState
  macro_attempts : Nat
  micro_attempts : Nat
deriving DecidableEq, Repr

/-- The status-to-state translation at the end of `check_entity`
(checker.c lines 3003-3013).  The C switch has cases for
`Check_Yield_Macro`, `Check_Success`, `Check_Complete`,
`Check_Return_To_Symres` and `Check_Failed` (the last four jump to
`clear_attempts`); any other status, in particular `Check_Error`, falls
out of the switch leaving the entity untouched. -/
def check_entity_transition (cs : CheckStatus) (ent : Entity) : Entity :=
  match cs with
  | .yield => { ent with macro_attempts := ent.macro_attempts + 1 }
  | .success => { state := .codeGen, macro_attempts := 0, micro_attempts := 0 }
  | .complete => { state := .finalized, macro_attempts := 0, micro_attempts := 0 }
  | .returnToSymres => { state := .resolveSymbols, macro_attempts := 0, micro_attempts := 0 }
  | .failed => { state := .failed, macro_attempts := 0, micro_attempts := 0 }
  | _ => ent

/-- Diagnostic severities used by the yield helpers: `Error_Waiting_On`
for `YIELD`/`YIELD_`, `Error_Critical` for `YIELD_ERROR`. -/
inductive Severity where
  | waitingOn
  | critical
deriving DecidableEq, Repr

/-- A reported diagnostic: position, severity and message. -/
structure Diagnostic where
  pos : Nat
  severity : Severity
  msg : String
deriving DecidableEq, Repr

/-- The `YIELD(loc, msg)` helper (checker.c lines 14-21): when
`context.cycle_detected` is set it reports `Error_Waiting_On` at `loc` and
produces `Check_Error`; otherwise it produces `Check_Yield_Macro` with no
diagnostic. -/
def YIELD (cycle_detected : Bool) (loc : Nat) (msg : String) :
    CheckStatus × List Diagnostic :=
  if cycle_detected then (.error, [⟨loc, .waitingOn, msg⟩])
  else (.yield, [])

/-- The `YIELD_(loc, msg, ...)` helper (checker.c lines 23-30); identical to
`YIELD` but with a format argument already folded into the message. -/
def YIELD_WITH (cycle_detected : Bool) (loc : Nat) (msg : String) :
    CheckStatus × List Diagnostic :=
  if cycle_detected then (.error, [⟨loc, .waitingOn, msg⟩])
  else (.yield, [])

/-- The `YIELD_ERROR(loc, msg)` helper (checker.c lines 32-39): like `YIELD`
but the diagnostic severity is `Error_Critical`. -/
def YIELD_ERROR (cycle_detected : Bool) (loc : Nat) (msg : String) :
    CheckStatus × List Diagnostic :=
  if cycle_detected then (.error, [⟨loc, .critical, msg⟩])
  else (.yield, [])

/-- The statement loop of `check_block` (checker.c lines 2122-2137), after
the body pointer has been advanced past the first `statement_idx`
statements.  Each statement's check result is given by the list element;
`Check_Success` advances and increments `statement_idx`,
`Check_Return_To_Symres` resets `statement_idx` to 0 and falls through to
the default case, and every other status is returned as-is. -/
def runBlock : List CheckStatus → Nat → CheckStatus × Nat
  | [], idx => (.success, idx)
  | s :: rest, idx =>
    match s with
    | .success => runBlock rest (idx + 1)
    | .returnToSymres => (.returnToSymres, 0)
    | other => (other, idx)

/-- `check_block` (checker.c lines 2113-2140): resume at `statement_idx`,
then run the statement loop.  A block is modelled by the list of statuses
its statements' checks return on this pass. -/
def check_block (stmts : List CheckStatus) (statement_idx : Nat) :
    CheckStatus × Nat :=
  runBlock (stmts.drop statement_idx) statement_idx

theorem runBlock_first_fail :
    ∀ (l : List CheckStatus) (idx m : Nat) (s : CheckStatus),
      (∀ k, k < m → l.get? k = some .success) →
      l.get? m = some s → s ≠ .success →
      runBlock l idx = (s, if s = .returnToSymres then 0 else idx + m)
  | [], _, m, _, _, hm, _ => by simp at hm
  | a :: rest, idx, 0, s, _, hm, hns => by
      simp only [List.get?] at hm
      cases hm
      cases a with
      | success => exact absurd rfl hns
      | returnToSymres => simp [runBlock]
      | _ => simp [runBlock]
  | a :: rest, idx, m + 1, s, hpre, hm, hns => by
      have ha : a = CheckStatus.success := by
        have := hpre 0 (Nat.succ_pos m)
        simpa using this
      subst ha
      have ih := runBlock_first_fail rest (idx + 1) m s
        (fun k hk => by simpa using hpre (k + 1) (Nat.succ_lt_succ hk))
        (by simpa using hm) hns
      rw [show runBlock (CheckStatus.success :: rest) idx = runBlock rest (idx + 1) from rfl, ih]
      by_cases h : s = CheckStatus.returnToSymres <;> simp [h]
      omega

/-- Claim C1, counterexample: when the dispatched check procedure returns
`Check_Error`, `check_entity` does not set the entity's state to `Failed`;
the final switch in `check_entity` has no `Check_Error` case, so the
entity (here in state `Check_Types` with attempt counters 3 and 5) is left
completely unchanged. -/
theorem check_entity_error_leaves_state_counterexample :
    check_entity_transition .error ⟨.checkTypes, 3, 5⟩ = ⟨.checkTypes, 3, 5⟩ ∧
      (check_entity_transition .error ⟨.checkTypes, 3, 5⟩).state ≠ .failed := by
  decide

/-- Claim C1 (amended): `check_entity` maps the `Check_Failed` status to the
`Failed` entity state (clearing both attempt counters), but on `Check_Error`
it leaves the entity — state and counters — unchanged, because the final
switch has no `Check_Error` case. -/
theorem check_entity_error_vs_failed (ent : Entity) :
    check_entity_transition .error ent = ent ∧
      check_entity_transition .failed ent =
        { state := .failed, macro_attempts := 0, micro_attempts := 0 } := by
  exact ⟨rfl, rfl⟩

/-- Claim C9: on `Check_Yield_Macro` the entity's state and `micro_attempts`
are untouched and `macro_attempts` is incremented; on `Check_Success`,
`Check_Complete`, `Check_Return_To_Symres` and `Check_Failed` the state is
set to `Code_Gen`, `Finalized`, `Resolve_Symbols` and `Failed` respectively
and both attempt counters are reset to 0. -/
theorem check_entity_attempt_counters (ent : Entity) :
    check_entity_transition .yield ent =
        { ent with macro_attempts := ent.macro_attempts + 1 } ∧
      check_entity_transition .success ent =
        { state := .codeGen, macro_attempts := 0, micro_attempts := 0 } ∧
      check_entity_transition .complete ent =
        { state := .finalized, macro_attempts := 0, micro_attempts := 0 } ∧
      check_entity_transition .returnToSymres ent =
        { state := .resolveSymbols, macro_attempts := 0, micro_attempts := 0 } ∧
      check_entity_transition .failed ent =
        { state := .failed, macro_attempts := 0, micro_attempts := 0 } := by
  exact ⟨rfl, rfl, rfl, rfl, rfl⟩

/-- Claim C5: each of the helpers `YIELD`, `YIELD_` and `YIELD_ERROR`
returns `Check_Yield_Macro` and reports nothing when `cycle_detected` is
false, and reports exactly one diagnostic at the supplied position and
returns `Check_Error` when `cycle_detected` is true. -/
theorem yield_helpers_cycle_behavior (loc : Nat) (msg : String) :
    YIELD false loc msg = (.yield, []) ∧
      YIELD_WITH false loc msg = (.yield, []) ∧
      YIELD_ERROR false loc msg = (.yield, []) ∧
      YIELD true loc msg = (.error, [⟨loc, .waitingOn, msg⟩]) ∧
      YIELD_WITH true loc msg = (.error, [⟨loc, .waitingOn, msg⟩]) ∧
      YIELD_ERROR true loc msg = (.error, [⟨loc, .critical, msg⟩]) := by
  exact ⟨rfl, rfl, rfl, rfl, rfl, rfl⟩

/-- Claim C4: `check_block` resumes at `statement_idx`; every successful
statement advances the index by one, so when the first non-`Success`
status `s` occurs at absolute position `j` (all statements from the resume
point up to `j` succeeding), the block stops there and returns `s`, with
the stored index equal to `j` — except that `Check_Return_To_Symres`
resets the stored index to 0 before returning. -/
theorem check_block_resume_and_stop (stmts : List CheckStatus)
    (idx j : Nat) (s : CheckStatus) (hij : idx ≤ j) (_ : j < stmts.length)
    (hpre : ∀ k, idx ≤ k → k < j → stmts.get? k = some .success)
    (hs : stmts.get? j = some s) (hns : s ≠ .success) :
    check_block stmts idx = (s, if s = .returnToSymres then 0 else j) := by
  unfold check_block
  have hdrop : ∀ k, (stmts.drop idx).get? k = stmts.get? (idx + k) := by
    intro k
    exact List.get?_drop stmts idx k
  have h := runBlock_first_fail (stmts.drop idx) idx (j - idx) s
    (fun k hk => by
      rw [hdrop]
      exact hpre (idx + k) (Nat.le_add_right idx k) (by omega))
    (by rw [hdrop, Nat.add_sub_cancel' hij]; exact hs) hns
  rw [h, Nat.add_sub_cancel' hij]

/-- Witness for C4: a block of two statements where the second returns
`Check_Return_To_Symres`; the block stops there, returns that status and
resets its statement index to 0. -/
theorem check_block_resume_and_stop_witness :
    check_block [CheckStatus.success, CheckStatus.returnToSymres] 0 =
      (CheckStatus.returnToSymres, 0) := by
  have h := check_block_resume_and_stop
    [CheckStatus.success, CheckStatus.returnToSymres] 0 1
    CheckStatus.returnToSymres (by omega) (by simp)
    (fun k hk0 hk1 => by
      have : k = 0 := by omega
      subst this
      rfl)
    rfl (by decide)
  simpa using h

/-- Modelled from the spec: basic type kinds of the external type engine
(§3 lists `Basic` types with a bit-flag set; §6 makes the engine a black
box).  `typeIndex` is the reified-type value `Basic_Kind_Type_Index`. -/
inductive BasicKind where
  | void
  | bool
  | i8
  | u8
  | i16
  | u16
  | i32
  | u32
  | i64
  | u64
  | f32
  | f64
  | rawptr
  | typeIndex
deriving DecidableEq, Repr

/-- Basic type flag bits.  The individual flag names are the ones
`binary_op_is_allowed` uses (checker.c lines 894-947). -/
def FlagBoolean : Nat := 1

def FlagInteger : Nat := 2

def FlagUnsigned : Nat := 4

def FlagFloat : Nat := 8

def FlagPointer : Nat := 16

def FlagSIMD : Nat := 32

def FlagOrdered : Nat := 64

def FlagEquality : Nat := 128

/-- Modelled from the spec: the `Numeric` flag class.  The spec's allow
matrix (§4.6) admits `%`, `&`, `<<` … for the `Integer` class while the
numeric/bitwise/shift path also demands "right must be numeric", so the
`Integer` class is contained in the `Numeric` class: `Numeric` is the
union of the integer and float classes. -/
def FlagNumeric : Nat := FlagInteger ||| FlagFloat

/-- Modelled from the spec: the flag sets of the basic types (integers are
integer/numeric/ordered/equality, floats numeric/ordered/equality, bool is
boolean/equality, `rawptr` is pointer/equality, the reified type value
only supports equality). -/
def BasicKind.flags : BasicKind → Nat
  | .void => 0
  | .bool => FlagBoolean ||| FlagEquality
  | .i8 | .i16 | .i32 | .i64 =>
      FlagInteger ||| FlagOrdered ||| FlagEquality
  | .u8 | .u16 | .u32 | .u64 =>
      FlagInteger ||| FlagUnsigned ||| FlagOrdered ||| FlagEquality
  | .f32 | .f64 => FlagFloat ||| FlagOrdered ||| FlagEquality
  | .rawptr => FlagPointer ||| FlagEquality
  | .typeIndex => FlagEquality

/-- Modelled from the spec: byte sizes of the basic types (`void` has size
0; the target is 32-bit wasm so pointers take 4 bytes). -/
def BasicKind.size : BasicKind → Nat
  | .void => 0
  | .bool | .i8 | .u8 => 1
  | .i16 | .u16 => 2
  | .i32 | .u32 | .f32 | .rawptr | .typeIndex => 4
  | .i64 | .u64 | .f64 => 8

/-- Modelled from the spec: the interned semantic types the checker
inspects (§3): `Basic`, `Pointer`, `Array`, `Slice`, `DynArray`,
`VarArgs`, `Enum`, `Function`, `Compound`, plus the two struct instances
the claims need — the builtin `range` struct and an instance
`Iterator(elem)` of the builtin polymorphic `Iterator` struct — and the
`type_auto_return` sentinel (equality against it is significant). -/
inductive Ty where
  | basic (bk : BasicKind)
  | pointer (elem : Ty)
  | array (elem : Ty) (count : Nat)
  | slice (elem : Ty)
  | dynarray (elem : Ty)
  | varargs (elem : Ty)
  | enum (isFlags : Bool)
  | fn
  | compound (arity : Nat)
  | structTy (sid : Nat)
  | range
  | iterator (elem : Ty)
  | autoReturn
deriving DecidableEq, Repr

/-- Binary operations, in the declaration order documented by the
`binop_allowed` table in `binary_op_is_allowed` (checker.c lines
895-936), followed by the out-of-table operations `Subscript_Equals` and
`Ptr_Subscript` used by the overload machinery. -/
inductive BinOp where
  | add
  | minus
  | multiply
  | divide
  | modulus
  | equal
  | notEqual
  | less
  | lessEqual
  | greater
  | greaterEqual
  | and
  | or
  | xor
  | shl
  | shr
  | sar
  | boolAnd
  | boolOr
  | assignStart
  | assign
  | assignAdd
  | assignMinus
  | assignMultiply
  | assignDivide
  | assignModulus
  | assignAnd
  | assignOr
  | assignXor
  | assignShl
  | assignShr
  | assignSar
  | assignEnd
  | pipe
  | rangeOp
  | subscriptEquals
  | ptrSubscript
deriving DecidableEq, Repr

/-- The static `binop_allowed` table of `binary_op_is_allowed` (checker.c
lines 895-936): allowed flag mask per operation.  Operations past
`Binary_Op_Count` (`Subscript_Equals`, `Ptr_Subscript`) are never looked
up; they get mask 0 here. -/
def binop_allowed : BinOp → Nat
  | .add => FlagNumeric ||| FlagPointer
  | .minus => FlagNumeric ||| FlagPointer
  | .multiply => FlagNumeric
  | .divide => FlagNumeric
  | .modulus => FlagInteger
  | .equal => FlagEquality
  | .notEqual => FlagEquality
  | .less => FlagOrdered
  | .lessEqual => FlagOrdered
  | .greater => FlagOrdered
  | .greaterEqual => FlagOrdered
  | .and => FlagInteger
  | .or => FlagInteger
  | .xor => FlagInteger
  | .shl => FlagInteger
  | .shr => FlagInteger
  | .sar => FlagInteger
  | .boolAnd => FlagBoolean
  | .boolOr => FlagBoolean
  | _ => 0

/-- The `effective_flags` computation of `binary_op_is_allowed` (checker.c
lines 938-944): `Basic` uses its own flags, `Pointer` gets the Pointer
flag, `Enum` the Integer flag, `Function` the Equality flag, and every
other type kind keeps the initial value 0. -/
def effective_flags : Ty → Nat
  | .basic bk => bk.flags
  | .pointer _ => FlagPointer
  | .enum _ => FlagInteger
  | .fn => FlagEquality
  | _ => 0

/-- `binary_op_is_allowed` (checker.c lines 894-947). -/
def binary_op_is_allowed (operation : BinOp) (type : Ty) : Bool :=
  (binop_allowed operation &&& effective_flags type) != 0

/-- Claim C10: enums receive the Integer flag and are therefore accepted
for the arithmetic (`+ - * /`), modulus, bitwise (`& | ^`) and shift
(`<< >> >>>`) operators; function types receive the Equality flag and are
accepted for `==` and `!=`; and a type whose kind is not Basic, Pointer,
Enum or Function has effective flags 0 and is rejected for every binary
operator. -/
theorem binary_op_is_allowed_enum_fn_rest :
    (∀ b : Bool,
      binary_op_is_allowed .add (.enum b) = true ∧
      binary_op_is_allowed .minus (.enum b) = true ∧
      binary_op_is_allowed .multiply (.enum b) = true ∧
      binary_op_is_allowed .divide (.enum b) = true ∧
      binary_op_is_allowed .modulus (.enum b) = true ∧
      binary_op_is_allowed .and (.enum b) = true ∧
      binary_op_is_allowed .or (.enum b) = true ∧
      binary_op_is_allowed .xor (.enum b) = true ∧
      binary_op_is_allowed .shl (.enum b) = true ∧
      binary_op_is_allowed .shr (.enum b) = true ∧
      binary_op_is_allowed .sar (.enum b) = true) ∧
    binary_op_is_allowed .equal .fn = true ∧
    binary_op_is_allowed .notEqual .fn = true ∧
    (∀ (op : BinOp) (e : Ty) (n k : Nat),
      binary_op_is_allowed op (.array e n) = false ∧
      binary_op_is_allowed op (.slice e) = false ∧
      binary_op_is_allowed op (.dynarray e) = false ∧
      binary_op_is_allowed op (.varargs e) = false ∧
      binary_op_is_allowed op (.compound k) = false ∧
      binary_op_is_allowed op .range = false ∧
      binary_op_is_allowed op (.iterator e) = false ∧
      binary_op_is_allowed op .autoReturn = false) := by
  have h : ∀ (t : Ty), effective_flags t = 0 →
      ∀ op : BinOp, binary_op_is_allowed op t = false := by
    intro t ht op
    simp [binary_op_is_allowed, ht]
  refine ⟨by decide, by decide, by decide, ?_⟩
  intro op e n k
  exact ⟨h (.array e n) rfl op, h (.slice e) rfl op, h (.dynarray e) rfl op,
    h (.varargs e) rfl op, h (.compound k) rfl op, h .range rfl op,
    h (.iterator e) rfl op, h .autoReturn rfl op⟩

/-- Modelled from the spec: `types_are_compatible` of the external type
engine (§6).  Types are interned structural values, so compatibility is
modelled as identity of the interned type; the claims only apply it at
identical or manifestly different types. -/
def types_are_compatible (a b : Ty) : Bool := a == b

/-- Modelled from the spec: the type of the builtin range struct's first
member (`low`), a 32-bit integer (§4.3: range bounds are 32-bit
integers).  `check_for` copies it into the loop variable for range
iteration (`builtin_range_type_type->Struct.memarr[0]->type`). -/
def builtin_range_member0_ty : Ty := .basic .i32

/-- Loop classifications assigned by `check_for`'s first pass:
`For_Loop_Invalid/Range/Array/Slice/DynArr/Iterator`. -/
inductive ForLoop where
  | invalid
  | rangeLoop
  | array
  | slice
  | dynArr
  | iterator
deriving DecidableEq, Repr

/-- Result of `check_for`'s first pass: the status, the loop
classification, the loop variable's assigned type (`none` when the pass
errored before assigning one), whether the loop variable was flagged
`Ast_Flag_Cannot_Take_Addr`, and whether the pointless-`#no_close`
warning was emitted. -/
structure ForFirst where
  status : CheckStatus
  loop_type : ForLoop
  var_ty : Option Ty
  cannot_take_addr : Bool
  warned_no_close : Bool
deriving DecidableEq, Repr

/-- The classification chain of `check_for`'s first pass (checker.c lines
249-313).  `none` means the branch reported a hard error (`ERROR` returns
immediately); otherwise the result is the loop type, the type assigned to
the loop variable, and whether the branch itself set
`Ast_Flag_Cannot_Take_Addr` (the two range branches do). -/
def classify_for_iterable (by_pointer : Bool) (iter_ty : Ty) :
    Option (ForLoop × Ty × Bool) :=
  if types_are_compatible iter_ty (.basic .i32) then
    -- integer iterable: sugared into a `0 .. n` range literal
    if by_pointer then none
    else some (.rangeLoop, builtin_range_member0_ty, true)
  else if types_are_compatible iter_ty .range then
    if by_pointer then none
    else some (.rangeLoop, builtin_range_member0_ty, true)
  else
    match iter_ty with
    | .array elem _ =>
        some (.array, if by_pointer then .pointer elem else elem, false)
    | .slice elem =>
        some (.slice, if by_pointer then .pointer elem else elem, false)
    | .varargs elem =>
        if by_pointer then none
        -- NOTE: slices and varargs are treated the same here
        else some (.slice, elem, false)
    | .dynarray elem =>
        some (.dynArr, if by_pointer then .pointer elem else elem, false)
    | .iterator elem =>
        if by_pointer then none
        else some (.iterator, elem, false)
    | _ => some (.invalid, .basic .void, false)

/-- `check_for`'s first pass (checker.c lines 234-325), from the point
where the iterable's type is known (the preceding null-type guard at line
242 yields and is outside this fragment).  After the classification
chain: `by_pointer` always flags the variable `Cannot_Take_Addr` (line
315), an `Invalid` classification is a hard error (line 318), and
`#no_close` on a non-iterator draws a warning (line 321). -/
def check_for_first (by_pointer no_close : Bool) (iter_ty : Ty) : ForFirst :=
  match classify_for_iterable by_pointer iter_ty with
  | none => ⟨.error, .invalid, none, false, false⟩
  | some (loop, varTy, cannotFromBranch) =>
      let cannot := cannotFromBranch || by_pointer
      if loop = .invalid then ⟨.error, .invalid, none, cannot, false⟩
      else ⟨.success, loop, some varTy, cannot, no_close && loop != .iterator⟩

/-- Claim C8: with `by_pointer` set, iterating an i32/range, VarArgs or
Iterator iterable is a hard error; for Array, Slice and DynArray
iterables, `by_pointer` makes the loop variable a pointer to the element
type and flags it `Cannot_Take_Addr`, while without `by_pointer` the loop
variable's type is the element type itself. -/
theorem check_for_by_pointer_rules (e : Ty) (n : Nat) (nc : Bool) :
    (check_for_first true nc (.basic .i32)).status = .error ∧
    (check_for_first true nc .range).status = .error ∧
    (check_for_first true nc (.varargs e)).status = .error ∧
    (check_for_first true nc (.iterator e)).status = .error ∧
    check_for_first true nc (.array e n) =
      ⟨.success, .array, some (.pointer e), true, nc⟩ ∧
    check_for_first true nc (.slice e) =
      ⟨.success, .slice, some (.pointer e), true, nc⟩ ∧
    check_for_first true nc (.dynarray e) =
      ⟨.success, .dynArr, some (.pointer e), true, nc⟩ ∧
    check_for_first false nc (.array e n) =
      ⟨.success, .array, some e, false, nc⟩ ∧
    check_for_first false nc (.slice e) =
      ⟨.success, .slice, some e, false, nc⟩ ∧
    check_for_first false nc (.dynarray e) =
      ⟨.success, .dynArr, some e, false, nc⟩ := by
  cases nc <;>
    refine ⟨rfl, rfl, rfl, rfl, ?_, ?_, ?_, ?_, ?_, ?_⟩ <;>
    simp [check_for_first, classify_for_iterable, types_are_compatible,
      builtin_range_member0_ty]

/-- Modelled from the spec: null-safe type predicates of the external
type engine (§6).  `type_is_numeric` and `type_is_integer` look at the
flag set of a `Basic` type; `type_is_pointer` accepts pointer types and
`rawptr`; `type_is_rawptr` singles out `rawptr`. -/
def type_is_numeric : Option Ty → Bool
  | some (.basic bk) => bk.flags &&& FlagNumeric != 0
  | _ => false

/-- Modelled from the spec: see `type_is_numeric`. -/
def type_is_integer : Option Ty → Bool
  | some (.basic bk) => bk.flags &&& FlagInteger != 0
  | _ => false

/-- Modelled from the spec: see `type_is_numeric`. -/
def type_is_pointer : Option Ty → Bool
  | some (.pointer _) => true
  | some (.basic .rawptr) => true
  | _ => false

/-- Modelled from the spec: see `type_is_numeric`. -/
def type_is_rawptr : Option Ty → Bool
  | some (.basic .rawptr) => true
  | _ => false

/-- Modelled from the spec: see `type_is_numeric`. -/
def type_is_compound : Option Ty → Bool
  | some (.compound _) => true
  | _ => false

/-- Modelled from the spec: see `type_is_numeric`. -/
def type_is_bool : Option Ty → Bool
  | some (.basic .bool) => true
  | _ => false

/-- Modelled from the spec: `type_size_of` of the external type engine on
a 32-bit wasm target (pointers, slices and the like are pointer-sized
aggregates).  The claims use the result only as an opaque element size. -/
def type_size_of : Ty → Nat
  | .basic bk => bk.size
  | .pointer _ => 4
  | .array elem n => n * type_size_of elem
  | .slice _ => 8
  | .dynarray _ => 12
  | .varargs _ => 8
  | .enum _ => 4
  | .fn => 4
  | .compound _ => 0
  | .structTy _ => 4
  | .range => 12
  | .iterator _ => 16
  | .autoReturn => 0

/-- Expressions of the fragment universe the operator-engine claims need:
integer literals, local variables, binary operations (carrying their
resolved type, the `Has_Been_Checked` flag and the `Comptime` flag), and
an opaque synthesized overload call handled by the call resolver. -/
inductive Expr where
  | numlit (v : Int) (ty : Option Ty)
  | localVar (id : Nat) (ty : Option Ty)
  | binop (op : BinOp) (left right : Expr) (ty : Option Ty)
      (checked comptime : Bool)
  | overloadCall (op : BinOp) (ty : Option Ty)
deriving DecidableEq, Repr

/-- The `type` field of an expression node. -/
def Expr.ty : Expr → Option Ty
  | .numlit _ t => t
  | .localVar _ t => t
  | .binop _ _ _ t _ _ => t
  | .overloadCall _ t => t

/-- Overwrite the `type` field of an expression node. -/
def Expr.setTy : Expr → Option Ty → Expr
  | .numlit v _, t => .numlit v t
  | .localVar i _, t => .localVar i t
  | .binop op l r _ c cf, t => .binop op l r t c cf
  | .overloadCall op _, t => .overloadCall op t

/-- The `Ast_Flag_Comptime` flag: number literals are comptime, locals are
not, binops carry their own flag. -/
def Expr.isComptime : Expr → Bool
  | .numlit _ _ => true
  | .localVar _ _ => false
  | .binop _ _ _ _ _ cf => cf
  | .overloadCall _ _ => false

/-- Modelled from the spec: `is_lval` (utils) — locals, parameters,
globals, dereferences, subscripts, field accesses and memory reservations
are l-values; of this universe only local variables qualify. -/
def is_lval : Expr → Bool
  | .localVar _ _ => true
  | _ => false

/-- Modelled from the spec: `binop_is_assignment` (utils) — the operations
strictly between `Assign_Start` and `Assign_End`. -/
def binop_is_assignment : BinOp → Bool
  | .assign | .assignAdd | .assignMinus | .assignMultiply | .assignDivide
  | .assignModulus | .assignAnd | .assignOr | .assignXor | .assignShl
  | .assignShr | .assignSar => true
  | _ => false

/-- Modelled from the spec: `binop_is_compare` (utils) — `==`, `!=`, `<`,
`<=`, `>`, `>=`. -/
def binop_is_compare : BinOp → Bool
  | .equal | .notEqual | .less | .lessEqual | .greater | .greaterEqual => true
  | _ => false

/-- The compound-assignment desugaring table of `check_binaryop_assignment`
(checker.c lines 855-866): `+=` becomes `+`, and so on. -/
def assignment_base_op : BinOp → BinOp
  | .assignAdd => .add
  | .assignMinus => .minus
  | .assignMultiply => .multiply
  | .assignDivide => .divide
  | .assignModulus => .modulus
  | .assignAnd => .and
  | .assignOr => .or
  | .assignXor => .xor
  | .assignShl => .shl
  | .assignShr => .shr
  | .assignSar => .sar
  | _ => .assign

/-- The condition at checker.c line 1073: the operand type is non-`Basic`
or carries the SIMD flag, which makes `check_binaryop` try an operator
overload. -/
def ty_non_basic_or_simd : Ty → Bool
  | .basic bk => bk.flags &&& FlagSIMD != 0
  | _ => true

/-- Result of `unify_node_and_type` (`TypeMatch`). -/
inductive TypeMatch where
  | success
  | failedMatch
  | yielded
deriving DecidableEq, Repr

/-- Modelled from the spec (§4.2): `unify_node_and_type` asks the external
type engine whether the expression can conform to the target type and may
rewrite it.  The claims only exercise it at expressions whose resolved
type is already the target or is manifestly different, so conformance is
modelled as type identity; this model never yields. -/
def unify_node_and_type (e : Expr) (target : Ty) : TypeMatch × Expr :=
  match e.ty with
  | some t => if t = target then (.success, e) else (.failedMatch, e)
  | none => (.failedMatch, e)

/-- Modelled from the spec: `resolve_expression_type` resolves an
expression's default type; an unsized integer literal defaults to `i32`.
All other expressions of this universe already carry their final type. -/
def resolve_expression_type : Expr → Expr
  | .numlit v none => .numlit v (some (.basic .i32))
  | e => e

/-- Outcome of the external overload pick inside
`binaryop_try_operator_overload`: no matching overload, the
`node_that_signals_a_yield` sentinel, or a successful pick (which
synthesizes an implicit call). -/
inductive OverloadOutcome where
  | noMatch
  | yieldSignal
  | picked
deriving DecidableEq, Repr

/-- The ambient checker context of this fragment: the mutable globals of
checker.c (`cycle_detected`, `expression_types_must_be_known`,
`all_checks_are_final`, `current_checking_level`) together with the
external overload machinery (`operator_overloads` lengths,
`find_matching_overload_by_arguments` outcomes, and the result of
checking a synthesized overload call, which the call resolver — outside
this fragment — produces). -/
structure Ctx where
  cycle_detected : Bool := false
  expression_types_must_be_known : Bool := false
  all_checks_are_final : Bool := true
  checking_level_is_expression : Bool := false
  overload_count : BinOp → Nat := fun _ => 0
  find_overload : BinOp → OverloadOutcome := fun _ => .noMatch
  overload_call_result : BinOp → CheckStatus × Option Ty :=
    fun _ => (.success, none)

/-- `binaryop_try_operator_overload` (checker.c lines 748-790), pure
view: with no registered overloads for the operation it returns null
immediately (line 749); otherwise the external overload pick decides.
(The speculative `check_address_of` it performs for assignment operators
mutates checker state and is embedded separately for the
`all_checks_are_final` claim.) -/
def binaryop_try_operator_overload_pure (ctx : Ctx) (op : BinOp) :
    OverloadOutcome :=
  if ctx.overload_count op = 0 then .noMatch
  else ctx.find_overload op

/-- The YIELD macro's status outcome (diagnostics tracked elsewhere). -/
def yieldStatus (cycle_detected : Bool) : CheckStatus :=
  if cycle_detected then .error else .yield

/-- `check_binaryop_compare` (checker.c lines 949-990): yields while a
side's type is unknown, erases pointer types to `rawptr` for the
compatibility test, bidirectionally unifies on mismatch, requires the
operator to be allowed for the left type, and produces `bool` (folding
comptime results; the fold is modelled as the identity). -/
def check_binaryop_compare (ctx : Ctx) (op : BinOp) (l r : Expr)
    (cflag : Bool) : CheckStatus × Expr :=
  match l.ty, r.ty with
  | none, _ => (yieldStatus ctx.cycle_detected, .binop op l r none false cflag)
  | _, none => (yieldStatus ctx.cycle_detected, .binop op l r none false cflag)
  | some lt0, some rt0 =>
      let lt := match lt0 with
        | .pointer _ => Ty.basic .rawptr
        | t => t
      let rt := match rt0 with
        | .pointer _ => Ty.basic .rawptr
        | t => t
      let unified : Option (Expr × Expr) :=
        if types_are_compatible lt rt then some (l, r)
        else
          -- no auto-cast nodes exist in this universe (line 964)
          match unify_node_and_type l rt with
          | (.success, l) => some (l, r)
          | _ =>
            match unify_node_and_type r lt with
            | (.success, r) => some (l, r)
            | _ => none
      match unified with
      | none => (.error, .binop op l r none false cflag)
      | some (l, r) =>
          match l.ty with
          | some t =>
              if !binary_op_is_allowed op t then
                (.error, .binop op l r none false cflag)
              else (.success, .binop op l r (some (.basic .bool)) false cflag)
          | none => (.error, .binop op l r none false cflag)

/-- `check_binaryop_bool` (checker.c lines 992-1007): both sides must be
`bool`; the result type is `bool` (comptime fold modelled as identity). -/
def check_binaryop_bool (op : BinOp) (l r : Expr) (cflag : Bool) :
    CheckStatus × Expr :=
  if !type_is_bool l.ty || !type_is_bool r.ty then
    (.error, .binop op l r none false cflag)
  else (.success, .binop op l r (some (.basic .bool)) false cflag)



/-- The expression dispatch of `check_expression` (checker.c lines
1786-1961) restricted to this universe, parameterized by the recursive
checker used for binop nodes: number literals (`Ast_Kind_NumLit`) and
locals (`Ast_Kind_Local`) succeed immediately, binops dispatch to
`check_binaryop`, and a synthesized overload call's result comes from the
call resolver via the context. -/
def check_expression_with (recurse : Expr → CheckStatus × Expr) (ctx : Ctx) :
    Expr → CheckStatus × Expr
  | .numlit v t => (.success, .numlit v t)
  | .localVar i t => (.success, .localVar i t)
  | .binop op l r t c cf => recurse (.binop op l r t c cf)
  | .overloadCall op _ =>
      ((ctx.overload_call_result op).1,
        .overloadCall op (ctx.overload_call_result op).2)

/-- `check_binaryop_assignment` (checker.c lines 793-892), restricted to
this universe: no node carries `Ast_Flag_Const`, the left side has no
type-node/entity to wait for, and compound destructuring (which needs a
compound left-hand side, absent here) is collapsed to its error exit.
`recheck` is the recursive `check_binaryop` call used to re-check the
desugared compound assignment (line 873). -/
def check_binaryop_assignment (recheck : Expr → CheckStatus × Expr)
    (ctx : Ctx) (op : BinOp) (l r : Expr) (cflag : Bool) :
    CheckStatus × Expr :=
  if ctx.checking_level_is_expression then
    (.error, .binop op l r none false cflag)
  else if !is_lval l then
    (.error, .binop op l r none false cflag)
  else if op == .assign then
    let step : Option (Expr × Expr) :=
      match l.ty with
      | none =>
          let r := resolve_expression_type r
          (match r.ty with
           | none => none
           | some (.compound _) => none
           | some rt => some (l.setTy (some rt), r))
      | some _ => some (l, r)
    match step with
    | none => (.error, .binop op l r none false cflag)
    | some (l, r) =>
        match unify_node_and_type r (l.ty.getD (.basic .void)) with
        | (.success, r) =>
            (.success, .binop .assign l r (some (.basic .void)) false cflag)
        | _ => (.error, .binop .assign l r none false cflag)
  else
    -- compound assignment: desugar to `left = left <op> right` and recheck
    let newRight : Expr := .binop (assignment_base_op op) l r none false false
    match recheck newRight with
    | (cs, newRight) =>
      if cs.isTerminal then (cs, .binop .assign l newRight none false cflag)
      else
        match unify_node_and_type newRight (l.ty.getD (.basic .void)) with
        | (.success, newRight) =>
            (.success, .binop .assign l newRight (some (.basic .void)) false cflag)
        | _ => (.error, .binop .assign l newRight none false cflag)

/-- The tail of `check_binaryop`'s numeric path (checker.c lines
1134-1174): compatibility / bidirectional unification, the result type,
the `binary_op_is_allowed` matrix, the enum-flags `&` special case, and
the final `all_checks_are_final`-guarded marking and comptime fold
(`ast_reduce` is the external folder; it is modelled as the identity
because no claim concerns the folded value). -/
def check_binaryop_finish (ctx : Ctx) (op : BinOp) (l r : Expr)
    (ty : Option Ty) (cflag : Bool) : CheckStatus × Expr :=
  let unified :
      Option (Expr × Expr) :=
    match l.ty, r.ty with
    | some lt, some rt =>
        if types_are_compatible lt rt then some (l, r)
        else
          -- no auto-cast nodes exist in this universe (line 1135)
          match unify_node_and_type l rt with
          | (.success, l) => some (l, r)
          | _ =>
            match unify_node_and_type r lt with
            | (.success, r) => some (l, r)
            | _ => none
    | _, _ => none
  match unified with
  | none => (.error, .binop op l r ty false cflag)
  | some (l, r) =>
      let ty := l.ty
      match ty with
      | none => (.error, .binop op l r ty false cflag)
      | some t =>
          if !binary_op_is_allowed op t then
            (.error, .binop op l r (some t) false cflag)
          else
            let t := match t with
              | .enum true => if op == .and then Ty.basic .bool else t
              | _ => t
            -- lines 1160-1167: Has_Been_Checked is set exactly when
            -- all_checks_are_final; the comptime fold (ast_reduce) is
            -- modelled as the identity, so the fold branch does not
            -- alter the node further
            (.success, .binop op l r (some t) ctx.all_checks_are_final cflag)

/-- `check_binaryop` (checker.c lines 1009-1175).  The subscript-assign
rewrite (line 1014) and the unary-field-access coercion (line 1051) are
never taken in this universe, which has no subscript or unary-field
nodes; the yield-on-unresolved-entity guards (lines 1092-1097) are never
taken because the universe has no entities.  `fuel` bounds the recursion
through the synthesized pointer-arithmetic multiplication and the
compound-assignment desugaring. -/
def check_binaryop : Nat → Ctx → Expr → CheckStatus × Expr
  | 0, _, e => (.yield, e)
  | _ + 1, _, .numlit v t => (.success, .numlit v t)
  | _ + 1, _, .localVar i t => (.success, .localVar i t)
  | _ + 1, _, .overloadCall op t => (.success, .overloadCall op t)
  | fuel + 1, ctx, .binop op l r ty checked cflag =>
    if checked then (.success, .binop op l r ty checked cflag)
    else
      match check_expression_with (check_binaryop fuel ctx) ctx l with
      | (csl, l) =>
        if csl.isTerminal then (csl, .binop op l r ty checked cflag)
        else
          match check_expression_with (check_binaryop fuel ctx) ctx r with
          | (csr, r) =>
            if csr.isTerminal then (csr, .binop op l r ty checked cflag)
            else
              let cflag := cflag || (l.isComptime && r.isComptime)
              -- line 1066: under expression_types_must_be_known, an
              -- operand without a type is a hard error (conjunction
              -- order swapped here; both operands are pure)
              if (l.ty == none || r.ty == none) &&
                  ctx.expression_types_must_be_known then
                (.error, .binop op l r ty checked cflag)
              else
                let tryOverload :=
                  (match l.ty with
                   | some t => ty_non_basic_or_simd t
                   | none => false) ||
                  (match r.ty with
                   | some t => ty_non_basic_or_simd t
                   | none => false)
                match
                  if tryOverload then binaryop_try_operator_overload_pure ctx op
                  else .noMatch with
                | .yieldSignal =>
                    (yieldStatus ctx.cycle_detected, .binop op l r ty checked cflag)
                | .picked =>
                    -- the binop is replaced by the synthesized call and CHECKed
                    let (cs, t) := ctx.overload_call_result op
                    if cs.isTerminal then (cs, .overloadCall op t)
                    else (.success, .overloadCall op t)
                | .noMatch =>
                    if binop_is_assignment op then
                      check_binaryop_assignment (check_binaryop fuel ctx) ctx op l r cflag
                    else if binop_is_compare op then
                      check_binaryop_compare ctx op l r cflag
                    else if op == .boolAnd || op == .boolOr then
                      check_binaryop_bool op l r cflag
                    else
                      -- the numeric / pointer-arithmetic path, lines 1105-1174
                      if type_is_compound l.ty then
                        (.error, .binop op l r ty checked cflag)
                      else if !type_is_numeric r.ty then
                        (.error, .binop op l r ty checked cflag)
                      else if type_is_rawptr l.ty then
                        (.error, .binop op l r ty checked cflag)
                      else if type_is_pointer l.ty then
                        if op != .add && op != .minus then
                          (.error, .binop op l r ty checked cflag)
                        else
                          let r := resolve_expression_type r
                          if !type_is_integer r.ty then
                            (.error, .binop op l r ty checked cflag)
                          else
                            match l.ty with
                            | some (.pointer elem) =>
                                let numlit : Expr :=
                                  .numlit (Int.ofNat (type_size_of elem)) r.ty
                                let mult : Expr :=
                                  .binop .multiply r numlit none false false
                                (match check_binaryop fuel ctx mult with
                                 | (csm, mult) =>
                                   if csm.isTerminal then
                                     (csm, .binop op l r ty checked cflag)
                                   else
                                     -- binop->right = n * sizeof(*p);
                                     -- binop->type = binop->right->type = left type
                                     check_binaryop_finish ctx op l
                                       (mult.setTy l.ty) l.ty cflag)
                            | _ =>
                                -- unreachable: type_is_pointer and not rawptr
                                (.error, .binop op l r ty checked cflag)
                      else
                        check_binaryop_finish ctx op l r ty cflag

/-- `check_expression` (checker.c lines 1786-1961) on this universe: the
dispatch with `check_binaryop` as the binop checker. -/
def check_expression (fuel : Nat) (ctx : Ctx) : Expr → CheckStatus × Expr :=
  check_expression_with (check_binaryop fuel ctx) ctx

/-- The self-compatibility of interned types. -/
theorem types_are_compatible_self (t : Ty) : types_are_compatible t t = true := by
  simp [types_are_compatible]

/-- Pointer operands admit `+` and `-` (the allow matrix's Pointer bit). -/
theorem add_minus_allowed_ptr (e : Ty) :
    binary_op_is_allowed .add (.pointer e) = true ∧
      binary_op_is_allowed .minus (.pointer e) = true := by
  constructor <;>
    simp [binary_op_is_allowed, effective_flags, binop_allowed,
      FlagNumeric, FlagInteger, FlagFloat, FlagPointer]

/-- `check_binaryop_finish` at two operands of one and the same
pointer type: the sides are compatible, `+`/`-` are allowed for pointers,
and the node gets the pointer type, marked exactly when
`all_checks_are_final`. -/
theorem check_binaryop_finish_ptr (ctx : Ctx) (op : BinOp) (l r : Expr)
    (e : Ty) (ty : Option Ty) (cflag fin : Bool)
    (hl : l.ty = some (.pointer e)) (hr : r.ty = some (.pointer e))
    (hop : binary_op_is_allowed op (.pointer e) = true)
    (hfin : ctx.all_checks_are_final = fin) :
    check_binaryop_finish ctx op l r ty cflag =
      (.success, .binop op l r (some (.pointer e)) fin cflag) := by
  subst hfin
  unfold check_binaryop_finish
  rw [hl, hr]
  simp only [types_are_compatible_self, if_true, hl, hop]
  simp

/-- Claim C2 (amended): in `check_binaryop`, for `+` and `-` with a
pointer-typed (non-rawptr) LEFT operand and an integer-typed RIGHT
operand, and no operator overloads registered, the right operand is
rewritten into a multiplication of itself by the size of the pointed-to
element type and the resulting binop's type is the left (pointer)
operand's type.  (The opposite operand order is rejected — see the
counterexample.) -/
theorem check_binaryop_pointer_arith (cyc em fin lv : Bool)
    (fo : BinOp → OverloadOutcome) (ocr : BinOp → CheckStatus × Option Ty)
    (elem : Ty) (bk : BasicKind) (a b fuel : Nat)
    (hint : type_is_integer (some (.basic bk)) = true) :
    check_binaryop (fuel + 2) ⟨cyc, em, fin, lv, fun _ => 0, fo, ocr⟩
        (.binop .add (.localVar a (some (.pointer elem)))
          (.localVar b (some (.basic bk))) none false false) =
      (.success, .binop .add (.localVar a (some (.pointer elem)))
        (.binop .multiply (.localVar b (some (.basic bk)))
          (.numlit (Int.ofNat (type_size_of elem)) (some (.basic bk)))
          (some (.pointer elem)) fin false)
        (some (.pointer elem)) fin false) ∧
    check_binaryop (fuel + 2) ⟨cyc, em, fin, lv, fun _ => 0, fo, ocr⟩
        (.binop .minus (.localVar a (some (.pointer elem)))
          (.localVar b (some (.basic bk))) none false false) =
      (.success, .binop .minus (.localVar a (some (.pointer elem)))
        (.binop .multiply (.localVar b (some (.basic bk)))
          (.numlit (Int.ofNat (type_size_of elem)) (some (.basic bk)))
          (some (.pointer elem)) fin false)
        (some (.pointer elem)) fin false) := by
  have stepAdd :
      check_binaryop (fuel + 2) ⟨cyc, em, fin, lv, fun _ => 0, fo, ocr⟩
          (.binop .add (.localVar a (some (.pointer elem)))
            (.localVar b (some (.basic bk))) none false false) =
        check_binaryop_finish ⟨cyc, em, fin, lv, fun _ => 0, fo, ocr⟩ .add
          (.localVar a (some (.pointer elem)))
          (.binop .multiply (.localVar b (some (.basic bk)))
            (.numlit (Int.ofNat (type_size_of elem)) (some (.basic bk)))
            (some (.pointer elem)) fin false)
          (some (.pointer elem)) false := by
    cases bk <;> first
      | exact absurd hint (by decide)
      | rfl
  have stepMinus :
      check_binaryop (fuel + 2) ⟨cyc, em, fin, lv, fun _ => 0, fo, ocr⟩
          (.binop .minus (.localVar a (some (.pointer elem)))
            (.localVar b (some (.basic bk))) none false false) =
        check_binaryop_finish ⟨cyc, em, fin, lv, fun _ => 0, fo, ocr⟩ .minus
          (.localVar a (some (.pointer elem)))
          (.binop .multiply (.localVar b (some (.basic bk)))
            (.numlit (Int.ofNat (type_size_of elem)) (some (.basic bk)))
            (some (.pointer elem)) fin false)
          (some (.pointer elem)) false := by
    cases bk <;> first
      | exact absurd hint (by decide)
      | rfl
  exact ⟨stepAdd.trans
      (check_binaryop_finish_ptr _ _ _ _ elem _ _ fin rfl rfl
        (add_minus_allowed_ptr elem).1 rfl),
    stepMinus.trans
      (check_binaryop_finish_ptr _ _ _ _ elem _ _ fin rfl rfl
        (add_minus_allowed_ptr elem).2 rfl)⟩

/-- Witness for C2 (amended): `p + n` with `p : ^i32` and `n : i32` and no
`+` overloads elaborates to `p + n * 4` of type `^i32`. -/
theorem check_binaryop_pointer_arith_witness :
    check_binaryop 2 {}
        (.binop .add (.localVar 0 (some (.pointer (.basic .i32))))
          (.localVar 1 (some (.basic .i32))) none false false) =
      (.success, .binop .add (.localVar 0 (some (.pointer (.basic .i32))))
        (.binop .multiply (.localVar 1 (some (.basic .i32)))
          (.numlit 4 (some (.basic .i32)))
          (some (.pointer (.basic .i32))) true false)
        (some (.pointer (.basic .i32))) true false) := by
  have h := (check_binaryop_pointer_arith false false true false
    (fun _ => .noMatch) (fun _ => (.success, none))
    (.basic .i32) .i32 0 1 0 rfl).1
  simpa using h

/-- Claim C2, counterexample: with the operands in the other order —
integer on the left, pointer on the right (`n + p`) — `check_binaryop`
does not synthesize any multiplication: the right operand fails the
`type_is_numeric` test at line 1109 and the binop is rejected with a hard
error, the node left unchanged. -/
theorem check_binaryop_int_plus_pointer_counterexample :
    check_binaryop 9 {}
        (.binop .add (.localVar 1 (some (.basic .i32)))
          (.localVar 0 (some (.pointer (.basic .i32)))) none false false) =
      (.error, .binop .add (.localVar 1 (some (.basic .i32)))
        (.localVar 0 (some (.pointer (.basic .i32)))) none false false) := by
  rfl

/-- Error message of checker.c line 169-171. -/
def msg_nonvoid_bare_return : String :=
  "Returning from non-void function without a value. Expected a value of type '%s'."

/-- Error message of checker.c line 139. -/
def msg_auto_return_unknown : String :=
  "Unable to determine the automatic return type here."

/-- Error message of checker.c lines 146-149. -/
def msg_return_type_mismatch : String :=
  "Expected to return a value of type '%s', returning value of type '%s'."

/-- The `(*expected_return_type)->Basic.size` read of checker.c line 168.
For a `Basic` type this is its size field; the C reads the same union
slot for every kind, modelled here by the type's size, which is positive
for every non-void type of the universe. -/
def Ty.basicSize : Ty → Nat
  | .basic bk => bk.size
  | t => type_size_of t

/-- `check_return` (checker.c lines 132-176).  `*expected_return_type` is
passed in and the possibly-rewritten value is returned.  The
`return ^literal` rejection (line 155) is never taken in this universe,
which has no address-of expressions. -/
def check_return (fuel : Nat) (ctx : Ctx) (ert : Ty)
    (retExpr : Option Expr) : CheckStatus × Ty × List String :=
  match retExpr with
  | some e =>
    (match check_expression fuel ctx e with
     | (cs, e) =>
       if cs.isTerminal then (cs, ert, [])
       else if ert = .autoReturn then
         let e := resolve_expression_type e
         match e.ty with
         | none =>
             (yieldStatus ctx.cycle_detected, Ty.autoReturn,
               if ctx.cycle_detected then [msg_auto_return_unknown] else [])
         | some t => (.success, t, [])
       else
         match unify_node_and_type e ert with
         | (.success, _) => (.success, ert, [])
         | (.yielded, _) => (yieldStatus ctx.cycle_detected, ert, [])
         | (.failedMatch, _) => (.error, ert, [msg_return_type_mismatch]))
  | none =>
    if ert = .autoReturn then (.success, .basic .void, [])
    else if 0 < ert.basicSize then (.error, ert, [msg_nonvoid_bare_return])
    else (.success, ert, [])

/-- Claim C3: when `*expected_return_type` is the `type_auto_return`
sentinel, a `return e` whose expression checks successfully with a
resolvable type overwrites the expected return type with that type and
succeeds; a bare `return` overwrites it with `void` and succeeds; and
once a non-void return type (a basic type of positive size) has been
set, a bare `return` reports the non-void-function-without-a-value error. -/
theorem check_return_auto_and_bare (fuel : Nat) (ctx : Ctx) (e e2 : Expr)
    (t : Ty) (bk : BasicKind)
    (h1 : check_expression fuel ctx e = (.success, e2))
    (h2 : (resolve_expression_type e2).ty = some t)
    (hbk : 0 < bk.size) :
    check_return fuel ctx .autoReturn (some e) = (.success, t, []) ∧
    check_return fuel ctx .autoReturn none = (.success, .basic .void, []) ∧
    check_return fuel ctx (.basic bk) none =
      (.error, .basic bk, [msg_nonvoid_bare_return]) := by
  refine ⟨?_, rfl, ?_⟩
  · simp [check_return, h1, CheckStatus.isTerminal, CheckStatus.toNat, h2]
  · have hne : (Ty.basic bk) ≠ .autoReturn := by intro h; cases h
    simp [check_return, hne, Ty.basicSize, hbk]

/-- Witness for C3: `return 42` (an `i32` literal) under an auto return
type sets the return type to `i32`; a bare return under auto sets `void`;
and a bare return once the type is `i32` errors. -/
theorem check_return_auto_and_bare_witness :
    check_return 0 {} .autoReturn (some (.numlit 42 (some (.basic .i32)))) =
        (.success, .basic .i32, []) ∧
      check_return 0 {} .autoReturn none = (.success, .basic .void, []) ∧
      check_return 0 {} (.basic .i32) none =
        (.error, .basic .i32, [msg_nonvoid_bare_return]) :=
  check_return_auto_and_bare 0 {} (.numlit 42 (some (.basic .i32)))
    (.numlit 42 (some (.basic .i32))) (.basic .i32) .i32 rfl rfl (by decide)

/-- The integer-switch bookkeeping of an `AstSwitch` node
(`Switch_Kind_Integer`): the `{case value → block}` map (`bh_imap`,
modelled as an insertion-ordered association list over the 64-bit case
value) and the `min_case`/`max_case` bounds, initialised at checker.c
lines 408-411 (`min_case = 0xffffffffffffffff`). -/
structure SwitchIntState where
  case_map : List (Nat × Nat)
  min_case : Nat
  max_case : Nat
deriving DecidableEq, Repr

/-- The state right after the `Switch_Kind_Integer` initialisation. -/
def switch_int_init : SwitchIntState :=
  { case_map := [], min_case := 0xffffffffffffffff, max_case := 0 }

/-- `bh_imap_has`: key lookup in the case map. -/
def imap_has (m : List (Nat × Nat)) (k : Nat) : Bool :=
  m.any (fun p => p.1 == k)

/-- The i64 case value converted to the u64 map key (the C passes the
signed loop variable to the `u64 case_value` parameter). -/
def toU64 (v : Int) : Nat := (v % (2 ^ 64 : Int)).toNat

/-- The `"Multiple cases for values '%d'."` diagnostic for a value. -/
def multiple_cases_msg (case_value : Nat) : String :=
  "Multiple cases for values '" ++ toString case_value ++ "'."

/-- `add_case_to_switch_statement` (checker.c lines 344-357): update the
min/max bounds, then either report the multiple-cases error (returning 1)
on a key collision or record the value.  The returned flag, new state and
emitted diagnostics. -/
def add_case_to_switch_statement (st : SwitchIntState) (case_value : Nat)
    (block : Nat) : Bool × SwitchIntState × List String :=
  let st := { st with
    min_case := min st.min_case case_value,
    max_case := max st.max_case case_value }
  if imap_has st.case_map case_value then
    (true, st, [multiple_cases_msg case_value])
  else
    (false, { st with case_map := st.case_map ++ [(case_value, block)] }, [])

/-- A checked case value of an integer switch: a compile-time-known
integer or a compile-time-known range (both ends `AstNumLit`). -/
inductive CaseValue where
  | intCase (v : Int)
  | rangeCase (lo hi : Int)
deriving DecidableEq, Repr

/-- The values enumerated by `fori (case_value, lower, upper + 1)` —
inclusive on both ends, empty when `lower > upper`. -/
def rangeValues (lo hi : Int) : List Int :=
  (List.range (hi + 1 - lo).toNat).map (fun i => lo + Int.ofNat i)

/-- The range-insertion loop of `check_switch` (checker.c lines 461-464):
insert every covered value, returning `Check_Error` at the first
collision. -/
def insert_range_values (blk : Nat) :
    SwitchIntState → List Int → CheckStatus × SwitchIntState × List String
  | st, [] => (.success, st, [])
  | st, v :: rest =>
    match add_case_to_switch_statement st (toU64 v) blk with
    | (true, st, d) => (.error, st, d)
    | (false, st, _) => insert_range_values blk st rest

/-- Processing of one case value in `Switch_Kind_Integer` mode
(checker.c lines 445-488): a compile-time range inserts each covered
value; a single integer inserts its value; either returns `Check_Error`
at the first collision. -/
def process_case_value (st : SwitchIntState) (blk : Nat) :
    CaseValue → CheckStatus × SwitchIntState × List String
  | .intCase v =>
    (match add_case_to_switch_statement st (toU64 v) blk with
     | (true, st, d) => (.error, st, d)
     | (false, st, _) => (.success, st, []))
  | .rangeCase lo hi => insert_range_values blk st (rangeValues lo hi)

/-- The `bh_arr_each(AstTyped *, value, sc->values)` loop over one case's
value expressions (checker.c line 442), stopping at the first
non-success. -/
def process_case_values (blk : Nat) :
    SwitchIntState → List CaseValue → CheckStatus × SwitchIntState × List String
  | st, [] => (.success, st, [])
  | st, v :: rest =>
    match process_case_value st blk v with
    | (.success, st, _) => process_case_values blk st rest
    | (cs, st, d) => (cs, st, d)

/-- The `fori (i, switchnode->yield_return_index, …)` loop over the
hoisted cases of an integer switch (checker.c lines 438-516), each case
being a block id and its value list; the loop stops at the first
non-success status. -/
def check_switch_integer_cases :
    SwitchIntState → List (Nat × List CaseValue) →
      CheckStatus × SwitchIntState × List String
  | st, [] => (.success, st, [])
  | st, (blk, vs) :: rest =>
    match process_case_values blk st vs with
    | (.success, st, _) => check_switch_integer_cases st rest
    | (cs, st, d) => (cs, st, d)

/-- The result invariant of integer-switch case processing: either it
errors having reported exactly one multiple-cases diagnostic, or it
succeeds having reported none. -/
def oneCollisionInv (r : CheckStatus × SwitchIntState × List String) : Prop :=
  (r.1 = .error ∧ r.2.2.length = 1) ∨ (r.1 = .success ∧ r.2.2 = [])

theorem add_case_spec (st : SwitchIntState) (v blk : Nat) :
    (((add_case_to_switch_statement st v blk).1 = true ∧
        (add_case_to_switch_statement st v blk).2.2 =
          [multiple_cases_msg v]) ∨
      ((add_case_to_switch_statement st v blk).1 = false ∧
        (add_case_to_switch_statement st v blk).2.2 = [])) := by
  unfold add_case_to_switch_statement
  by_cases h : imap_has (st.case_map) v = true
  · simp [h]
  · simp [h]

theorem insert_range_values_inv (blk : Nat) :
    ∀ (vs : List Int) (st : SwitchIntState),
      oneCollisionInv (insert_range_values blk st vs)
  | [], st => by simp [insert_range_values, oneCollisionInv]
  | v :: rest, st => by
      unfold insert_range_values
      rcases add_case_spec st (toU64 v) blk with ⟨h1, h2⟩ | ⟨h1, h2⟩
      · rcases hadd : add_case_to_switch_statement st (toU64 v) blk with
          ⟨flag, st2, d⟩
        rw [hadd] at h1 h2
        simp at h1 h2
        subst h1
        subst h2
        simp [oneCollisionInv, multiple_cases_msg]
      · rcases hadd : add_case_to_switch_statement st (toU64 v) blk with
          ⟨flag, st2, d⟩
        rw [hadd] at h1 h2
        simp at h1 h2
        subst h1
        subst h2
        exact insert_range_values_inv blk rest st2

theorem process_case_value_inv (st : SwitchIntState) (blk : Nat)
    (c : CaseValue) : oneCollisionInv (process_case_value st blk c) := by
  cases c with
  | intCase v =>
      unfold process_case_value
      rcases add_case_spec st (toU64 v) blk with ⟨h1, h2⟩ | ⟨h1, h2⟩ <;>
        rcases hadd : add_case_to_switch_statement st (toU64 v) blk with
          ⟨flag, st2, d⟩ <;>
        rw [hadd] at h1 h2 <;> simp at h1 h2 <;> subst h1 <;> subst h2 <;>
        simp [oneCollisionInv, hadd, multiple_cases_msg]
  | rangeCase lo hi => exact insert_range_values_inv blk (rangeValues lo hi) st

theorem process_case_values_inv (blk : Nat) :
    ∀ (vs : List CaseValue) (st : SwitchIntState),
      oneCollisionInv (process_case_values blk st vs)
  | [], st => by simp [process_case_values, oneCollisionInv]
  | v :: rest, st => by
      unfold process_case_values
      rcases hpv : process_case_value st blk v with ⟨cs, st2, d⟩
      have h := process_case_value_inv st blk v
      rw [hpv] at h
      rcases h with ⟨h1, h2⟩ | ⟨h1, h2⟩
      · subst h1
        exact Or.inl ⟨rfl, h2⟩
      · subst h1
        subst h2
        exact process_case_values_inv blk rest st2

/-- Claim C6 (amended): integer-switch case processing reports the
`Multiple cases for values` error exactly once and aborts with
`Check_Error` at the first colliding case value; otherwise it succeeds
with no collision diagnostics — so one pass reports at most one
collision, not one error per colliding value. -/
theorem check_switch_one_collision_error :
    ∀ (cases : List (Nat × List CaseValue)) (st : SwitchIntState),
      ((check_switch_integer_cases st cases).1 = .error ∧
          (check_switch_integer_cases st cases).2.2.length = 1) ∨
        ((check_switch_integer_cases st cases).1 = .success ∧
          (check_switch_integer_cases st cases).2.2 = [])
  | [], st => by simp [check_switch_integer_cases]
  | (blk, vs) :: rest, st => by
      unfold check_switch_integer_cases
      rcases hpc : process_case_values blk st vs with ⟨cs, st2, d⟩
      have h := process_case_values_inv blk vs st
      rw [hpc] at h
      rcases h with ⟨h1, h2⟩ | ⟨h1, h2⟩
      · subst h1
        exact Or.inl ⟨rfl, h2⟩
      · subst h1
        subst h2
        exact check_switch_one_collision_error rest st2

/-- Claim C6, counterexample: `switch` with `case 1 .. 5` then
`case 3 .. 4`.  Both 3 and 4 are already recorded when the second case is
processed (two colliding case values), yet exactly one
`Multiple cases for values` error (for 3) is produced — not one per
collision — because the first collision aborts the whole switch check
with `Check_Error`. -/
theorem check_switch_collision_counterexample :
    (check_switch_integer_cases switch_int_init
        [(0, [.rangeCase 1 5]), (1, [.rangeCase 3 4])]).1 = .error ∧
      (check_switch_integer_cases switch_int_init
          [(0, [.rangeCase 1 5]), (1, [.rangeCase 3 4])]).2.2 =
        [multiple_cases_msg 3] ∧
      imap_has (check_switch_integer_cases switch_int_init
          [(0, [.rangeCase 1 5])]).2.1.case_map (toU64 3) = true ∧
      imap_has (check_switch_integer_cases switch_int_init
          [(0, [.rangeCase 1 5])]).2.1.case_map (toU64 4) = true := by
  refine ⟨?_, ?_, ?_, ?_⟩ <;> decide

/-- Nodes of the fragment around the speculative `check_address_of`
performed by `binaryop_try_operator_overload` for assignment operators:
locals, struct-type nodes (type AST nodes masquerading as expressions),
pointer-type nodes (`AstPointerType`, also built freshly by
`check_address_of` when its operand is a type), the address-of node
itself, and the `AstArgument` wrapper built by `make_argument`. -/
inductive CN where
  | localN (id : Nat) (ty : Option Ty)
  | structTyN (id : Nat) (ty : Option Ty)
  | ptrTyN (id : Nat) (elem : CN) (ty : Option Ty)
  | aofN (id : Nat) (operand : CN) (ty : Option Ty)
  | argN (id : Nat) (value : CN)
deriving DecidableEq, Repr

/-- The node id. -/
def CN.nid : CN → Nat
  | .localN i _ => i
  | .structTyN i _ => i
  | .ptrTyN i _ _ => i
  | .aofN i _ _ => i
  | .argN i _ => i

/-- The node's `type` field. -/
def CN.tyOf : CN → Option Ty
  | .localN _ t => t
  | .structTyN _ t => t
  | .ptrTyN _ _ t => t
  | .aofN _ _ t => t
  | .argN _ _ => none

/-- `node_is_type` on this universe: type AST nodes. -/
def CN.isTypeNode : CN → Bool
  | .structTyN _ _ => true
  | .ptrTyN _ _ _ => true
  | _ => false

/-- The checker state of this fragment: the `all_checks_are_final` and
`current_checking_level` globals, the arena's next fresh node id, and the
set of nodes bearing `Ast_Flag_Has_Been_Checked`.  `marked_not_final` is
the trace observation needed to state the spec's invariant 4: it records
every node that got the flag while `all_checks_are_final` was false. -/
structure ChkState where
  all_checks_are_final : Bool
  checking_level_is_expression : Bool
  next_id : Nat
  marked : List Nat
  marked_not_final : List Nat
deriving DecidableEq, Repr

/-- Setting `flags |= Ast_Flag_Has_Been_Checked` on a node: a no-op when
the flag is already set; otherwise the node is recorded, and also
recorded in the `marked_not_final` trace when `all_checks_are_final` is
false at that moment. -/
def markChecked (id : Nat) (σ : ChkState) : ChkState :=
  if σ.marked.contains id then σ
  else
    { σ with
      marked := σ.marked ++ [id],
      marked_not_final :=
        if σ.all_checks_are_final then σ.marked_not_final
        else σ.marked_not_final ++ [id] }

/-- Modelled from the spec: `type_build_from_ast` on the type nodes of
this universe always produces the interned type (§6); the built value
itself is irrelevant to the claims. -/
def type_build_from_ast_frag : CN → Option Ty
  | .structTyN i _ => some (.structTy i)
  | .ptrTyN _ (.structTyN i _) _ => some (.pointer (.structTy i))
  | .ptrTyN _ _ _ => some (.pointer (.basic .void))
  | _ => none

/-- `check_type` (checker.c lines 2514-2608) on this universe.  There are
no type aliases here; an already-`Has_Been_Checked` node returns
immediately (line 2522); a pointer type checks its element (line 2552; the
`Header_Check_No_Error` flag propagation has no counterpart in this
universe); a struct type node has no case in the switch.  Every checked
node is then marked `Has_Been_Checked` unconditionally (line 2606; the
`Comptime` flag is not tracked here). -/
def check_type_frag : CN → ChkState → CheckStatus × CN × ChkState
  | t, σ =>
    if σ.marked.contains t.nid then (.success, t, σ)
    else
      match t with
      | .ptrTyN id elem ty =>
          (match check_type_frag elem σ with
           | (cs, elem, σ) =>
             if cs.isTerminal then (cs, .ptrTyN id elem ty, σ)
             else (.success, .ptrTyN id elem ty, markChecked id σ))
      | t => (.success, t, markChecked t.nid σ)

/-- The expression dispatch (checker.c lines 1786-1961) for operands of
the speculative address-of: a type node is `CHECK(type)`ed, built, and
given the reified `Type_Index` type (lines 1788-1806); a local breaks
out successfully.  The operand of the address-of is never itself an
address-of in this fragment, and argument wrappers are built but never
re-checked here. -/
def check_expression_operand (e : CN) (σ : ChkState) :
    CheckStatus × CN × ChkState :=
  match e with
  | .structTyN id ty =>
      (match check_type_frag (.structTyN id ty) σ with
       | (cs, t, σ) =>
         if cs.isTerminal then (cs, t, σ)
         else
           match type_build_from_ast_frag t with
           | none => (.yield, t, σ)
           | some _ => (.success, .structTyN id (some (.basic .typeIndex)), σ))
  | .ptrTyN id elem ty =>
      (match check_type_frag (.ptrTyN id elem ty) σ with
       | (cs, t, σ) =>
         if cs.isTerminal then (cs, t, σ)
         else
           match type_build_from_ast_frag t with
           | none => (.yield, t, σ)
           | some _ =>
               (match t with
                | .ptrTyN id elem _ =>
                    (.success, .ptrTyN id elem (some (.basic .typeIndex)), σ)
                | t => (.success, t, σ)))
  | .localN id ty => (.success, .localN id ty, σ)
  | e => (.error, e, σ)

/-- `check_address_of` (checker.c lines 1475-1546) on this universe.
There are no aliases, no subscripts (so the `Ptr_Subscript` overload
attempt at line 1479 is never taken) and no addressable literals.  When
the checked operand is a type, a fresh `AstPointerType` node wrapping it
is allocated and `CHECK(type)`ed in place of the address-of (lines
1514-1521).  Otherwise only locals are valid l-value operands here; the
`Address_Taken`/`Cannot_Take_Addr` flags are not tracked. -/
def check_address_of_frag (a : CN) (σ : ChkState) :
    CheckStatus × CN × ChkState :=
  match a with
  | .aofN id operand ty =>
      (match check_expression_operand operand σ with
       | (cs, operand, σ) =>
         if cs.isTerminal then (cs, .aofN id operand ty, σ)
         else
           match operand.tyOf with
           | none => (.yield, .aofN id operand ty, σ)
           | some t =>
             if operand.isTypeNode then
               let ptId := σ.next_id
               let σ := { σ with next_id := σ.next_id + 1 }
               (match check_type_frag (.ptrTyN ptId operand none) σ with
                | (cs2, pt, σ) =>
                  if cs2.isTerminal then (cs2, pt, σ)
                  else (.success, pt, σ))
             else
               match operand with
               | .localN i lt => (.success, .aofN id (.localN i lt) (some (.pointer t)), σ)
               | operand => (.error, .aofN id operand ty, σ))
  | a => (.error, a, σ)

/-- The binop node as `binaryop_try_operator_overload` sees it: its
operation, both operands, and the cached `overload_args` tuple. -/
structure BinopNode where
  operation : BinOp
  left : CN
  right : CN
  overload_args : Option (List CN)
deriving DecidableEq, Repr

/-- `binaryop_try_operator_overload` (checker.c lines 748-790) in the
stateful fragment.  With no overloads registered for the operation it
returns null at once (line 749).  Otherwise, when the argument tuple is
not yet cached: for an assignment operation the first argument is a fresh
address-of of the left operand, speculatively checked with
`all_checks_are_final` cleared and restored afterwards (lines 756-764) —
a `Check_Yield_Macro` result returns the yield sentinel, `Check_Error`
returns null — and the built tuple is cached on the node.  The external
overload pick then decides the outcome. -/
def binaryop_try_operator_overload_st (ov_count : BinOp → Nat)
    (find_ov : BinOp → OverloadOutcome) (binop : BinopNode)
    (third : Option CN) (σ : ChkState) :
    OverloadOutcome × BinopNode × ChkState :=
  if ov_count binop.operation = 0 then (.noMatch, binop, σ)
  else
    match binop.overload_args with
    | some _ => (find_ov binop.operation, binop, σ)
    | none =>
      if binop_is_assignment binop.operation then
        let aof : CN := .aofN σ.next_id binop.left none
        let σ := { σ with next_id := σ.next_id + 1 }
        let saved_final := σ.all_checks_are_final
        let saved_level := σ.checking_level_is_expression
        let σ := { σ with all_checks_are_final := false }
        match check_address_of_frag aof σ with
        | (cs, v0, σ) =>
          let σ := { σ with
            all_checks_are_final := saved_final,
            checking_level_is_expression := saved_level }
          if cs = .yield then (.yieldSignal, binop, σ)
          else if cs = .error then (.noMatch, binop, σ)
          else
            let args := [CN.argN σ.next_id v0,
              CN.argN (σ.next_id + 1) binop.right] ++
              (match third with
               | some t => [CN.argN (σ.next_id + 2) t]
               | none => [])
            let σ := { σ with next_id := σ.next_id + 3 }
            let binop := { binop with overload_args := some args }
            (find_ov binop.operation, binop, σ)
      else
        let args := [CN.argN σ.next_id binop.left,
          CN.argN (σ.next_id + 1) binop.right] ++
          (match third with
           | some t => [CN.argN (σ.next_id + 2) t]
           | none => [])
        let σ := { σ with next_id := σ.next_id + 3 }
        let binop := { binop with overload_args := some args }
        (find_ov binop.operation, binop, σ)

/-- The concrete probe input of the C7 counterexample: `T += x` where the
left operand is an already-checked struct-type node (node 10) and one
`+=` operator overload is registered. -/
def c7_binop : BinopNode :=
  { operation := .assignAdd,
    left := .structTyN 10 (some (.basic .typeIndex)),
    right := .localN 11 (some (.structTy 5)),
    overload_args := none }

/-- The checker state at the probe: finality on, statement level, arena
at node 100, the struct-type node already checked. -/
def c7_state : ChkState :=
  { all_checks_are_final := true,
    checking_level_is_expression := false,
    next_id := 100,
    marked := [10],
    marked_not_final := [] }

/-- Claim C7, counterexample: one run of `binaryop_try_operator_overload`
on an assignment binop whose left operand is a type marks a node while
`all_checks_are_final` is false.  The speculative `check_address_of`
(entered with the flag cleared) wraps the type operand in a fresh
pointer-type node (id 101), and `check_type` marks that node
`Has_Been_Checked` unconditionally — the `marked_not_final` trace ends as
`[101]` even though the flag is restored to true afterwards and was true
on entry. -/
theorem speculative_mark_counterexample :
    c7_state.marked_not_final = [] ∧
      c7_state.all_checks_are_final = true ∧
      (binaryop_try_operator_overload_st (fun _ => 1) (fun _ => .noMatch)
          c7_binop none c7_state).2.2.marked_not_final = [101] ∧
      (binaryop_try_operator_overload_st (fun _ => 1) (fun _ => .noMatch)
          c7_binop none c7_state).2.2.all_checks_are_final = true := by
  refine ⟨rfl, rfl, ?_, ?_⟩ <;> decide

/-- Claim C7 (amended): `binaryop_try_operator_overload` always restores
`all_checks_are_final` (and the checking level) after the speculative
`check_address_of`, and `check_binaryop` itself marks its node only when
`all_checks_are_final` is set; but nodes synthesized during the
speculative call can still be marked `Has_Been_Checked` while the flag is
false — concretely, the fresh pointer-type node built when the address-of
operand is a type. -/
theorem binaryop_overload_probe_restores_final (ov_count : BinOp → Nat)
    (find_ov : BinOp → OverloadOutcome) (binop : BinopNode)
    (third : Option CN) (σ : ChkState) :
    ((binaryop_try_operator_overload_st ov_count find_ov binop third σ).2.2.all_checks_are_final =
        σ.all_checks_are_final ∧
      (binaryop_try_operator_overload_st ov_count find_ov binop third σ).2.2.checking_level_is_expression =
        σ.checking_level_is_expression) ∧
      (binaryop_try_operator_overload_st (fun _ => 1) (fun _ => .noMatch)
          c7_binop none c7_state).2.2.marked_not_final = [101] := by
  refine ⟨?_, by decide⟩
  unfold binaryop_try_operator_overload_st
  split
  · exact ⟨rfl, rfl⟩
  · split
    · exact ⟨rfl, rfl⟩
    · split
      · rcases h : check_address_of_frag
          (.aofN σ.next_id binop.left none)
          { σ with next_id := σ.next_id + 1, all_checks_are_final := false }
          with ⟨cs, v0, σ2⟩
        simp only [h]
        split
        · exact ⟨rfl, rfl⟩
        · split
          · exact ⟨rfl, rfl⟩
          · exact ⟨rfl, rfl⟩
      · exact ⟨rfl, rfl⟩

end Onyx
